import Mathlib

/-!
# Verification of the ScholarFinder reviewer-recommendation pipeline

Shallow embedding of the core logic of `scholarfinder_api.py`:
the keyword boolean-query builder (`keyword_string_generator`), the
multi-source merge in `database_search`, the manual author addition
(`manual_authors`) and the enrichment / condition-scoring / ranking stage
(`validate_authors`).

External collaborators (PubMed scraping, coauthorship check, affiliation
parsing, ...) are opaque to the core and are modelled as function
parameters.  Machine integers are modelled as `Int` (Python integers are
unbounded).  Pandas float division is modelled by an explicit IEEE-style
value type `PdFloat` (finite rational / infinity / NaN): numpy float
division never raises on a zero denominator, it produces `inf` or `nan`.
-/

namespace ScholarFinder

/-! ## Keyword string generation (`keyword_string_generator`, lines 442-458)

Source:
```python
def build_string(keywords):
    kws = [kw for kw in keywords if kw]
    if not kws:
        return ""
    if len(kws) == 1:
        return f"({kws[0]})"
    return f"({' OR '.join(kws)})"
primary_str = build_string(primary_keywords)
secondary_str = build_string(secondary_keywords)
if primary_str and secondary_str:
    keyword_string = f"{primary_str} AND {secondary_str}"
else:
    keyword_string = primary_str or secondary_str
```
Python string truthiness (`if kw`, `if primary_str`) is nonemptiness. -/

def build_string (keywords : List String) : String :=
  let kws := keywords.filter (fun kw => kw ≠ "")
  match kws with
  | [] => ""
  | [kw] => "(" ++ kw ++ ")"
  | _ => "(" ++ String.intercalate " OR " kws ++ ")"

def keyword_string (primary_keywords secondary_keywords : List String) : String :=
  let primary_str := build_string primary_keywords
  let secondary_str := build_string secondary_keywords
  if primary_str ≠ "" ∧ secondary_str ≠ "" then
    primary_str ++ " AND " ++ secondary_str
  else if primary_str ≠ "" then primary_str
  else secondary_str

/-- Spec-side clause shape (for the refinement claim C6, from the spec words):
terms of a group joined with OR inside parentheses. -/
def spec_clause (g : List String) : String :=
  "(" ++ String.intercalate " OR " g ++ ")"

/-- Spec-side query shape (claim C6, from the spec words): the two group
clauses joined with AND; when one group is empty, only the other clause,
with no AND; both empty gives the empty string. -/
def spec_keyword_query (p s : List String) : String :=
  if p.isEmpty ∧ s.isEmpty then ""
  else if p.isEmpty then spec_clause s
  else if s.isEmpty then spec_clause p
  else spec_clause p ++ " AND " ++ spec_clause s

/-! ## Author-name cleaning (`database_search`, lines 636-647)

Source:
```python
DEGREE_WORDS = {"MD","PhD","BD","MS","MSc","BSc","DDS","DO","DVM","DrPH",
                "MPH","MBA","EdD","DPhil","ScD","DSc","FRCP","FRCS","DPM"}
pattern = r"\b(" + "|".join(map(re.escape, DEGREE_WORDS)) + r")\b"
author.str.replace(pattern, "").str.replace(r",", "")
      .str.replace(r"\s+", " ").str.strip()
```
Because every alternative of the pattern is a run of word characters
bracketed by `\b`, the regex deletes exactly the maximal word-character
runs that are equal to one of the degree words (a match can neither start
nor end inside a run).  We model word characters as ASCII alphanumerics
plus underscore (Python `\w` restricted to ASCII, which covers all the
degree words). -/

def DEGREE_WORDS : List String :=
  ["MD", "PhD", "BD", "MS", "MSc", "BSc", "DDS", "DO", "DVM", "DrPH",
   "MPH", "MBA", "EdD", "DPhil", "ScD", "DSc", "FRCP", "FRCS", "DPM"]

def isWordChar (c : Char) : Bool := c.isAlphanum || c == '_'

/-- Emit a completed word-character run: dropped when it is a degree word. -/
def emitRun (run : List Char) : List Char :=
  if DEGREE_WORDS.contains (String.mk run) then [] else run

/-- Scan the character list, accumulating the current word-character run
(reversed) in the first argument. -/
def stripDegreeAux : List Char → List Char → List Char
  | run, [] => emitRun run.reverse
  | run, c :: cs =>
    if isWordChar c then stripDegreeAux (c :: run) cs
    else emitRun run.reverse ++ c :: stripDegreeAux [] cs

/-- `.str.replace(r",", "")`. -/
def removeCommas (l : List Char) : List Char := l.filter (fun c => c != ',')

/-- `.str.replace(r"\s+", " ")`: every maximal whitespace run becomes one
space.  The flag records whether the previous character was whitespace. -/
def collapseWsAux : Bool → List Char → List Char
  | _, [] => []
  | prevWs, c :: cs =>
    if c.isWhitespace then
      if prevWs then collapseWsAux true cs else ' ' :: collapseWsAux true cs
    else c :: collapseWsAux false cs

/-- Python `str.strip()` / pandas `.str.strip()`: drop leading and
trailing whitespace.  Defined on the character list (structurally
recursive, so concrete inputs evaluate inside the kernel). -/
def pyStrip (s : String) : String :=
  String.mk
    (((s.data.dropWhile Char.isWhitespace).reverse.dropWhile
        Char.isWhitespace).reverse)

/-- The whole cleaning chain applied to one author name, ending in `.str.strip()`. -/
def clean_author (s : String) : String :=
  pyStrip (String.mk (collapseWsAux false (removeCommas (stripDegreeAux [] s.data))))

/-! ## Multi-source merge (`database_search`, lines 604-653) -/

/-- One row of the concatenated per-source result table.  Only the two
columns the merge reads are modelled; Python dicts are association lists
with unique keys, preserving insertion order. -/
structure RawRecord where
  author_email_map : List (String × String)
  author_aff_map : List (String × String)

/-- One row of `author_email_df` (columns author, email, aff, city, country). -/
structure AuthorRow where
  author : String
  email : String
  aff : String
  city : String
  country : String
deriving DecidableEq

/-- Lines 612-631: keep rows whose two maps are nonempty, then one output
triple per entry of the email map; the affiliation is looked up by the
same author key, defaulting to the empty string (`aff_map.get(author, "")`). -/
def flattenRecords (rows : List RawRecord) : List (String × String × String) :=
  (rows.filter (fun row =>
      !row.author_email_map.isEmpty && !row.author_aff_map.isEmpty)).flatMap
    (fun row => row.author_email_map.map (fun ae =>
      (ae.1, ae.2,
        ((row.author_aff_map.find? (fun p => p.1 == ae.1)).map Prod.snd).getD "")))

/-- Lines 631-653: build the data frame (the `dropna` on line 632 is the
identity here: every field is a string, never a Python `None`/NaN), attach
the derived city and country (external collaborators `extract_city`,
`extract_country`, opaque), then clean the author-name column.
No deduplication of any kind is performed by the source. -/
def database_search_merge (extract_city extract_country : String → String)
    (rows : List RawRecord) : List AuthorRow :=
  let records := flattenRecords rows
  let withGeo := records.map (fun t =>
    { author := t.1, email := t.2.1, aff := t.2.2,
      city := extract_city t.2.2, country := extract_country t.2.2 : AuthorRow })
  withGeo.map (fun r => { r with author := clean_author r.author })

/-! ## Condition scoring (`validate_authors`, lines 977-1004)

The English-ratio condition divides two integer columns with pandas `/`
(numpy float64 true division).  A zero denominator never raises: `0/0`
is NaN and `x/0` for `x > 0` is `+inf` (with a warning, not an error).
We model the division result exactly: a finite rational, an infinity or
NaN; finite values are exact rationals rather than rounded doubles, which
is indistinguishable for the comparisons proved here (none of the claims
depends on double rounding of a nonzero-denominator quotient). -/

inductive PdFloat where
  | fin (q : ℚ)
  | posInf
  | negInf
  | nan
deriving DecidableEq

/-- Pandas/numpy float division of two integer columns. -/
def pdDiv (a b : ℤ) : PdFloat :=
  if b = 0 then
    if a = 0 then PdFloat.nan
    else if 0 < a then PdFloat.posInf
    else PdFloat.negInf
  else PdFloat.fin ((a : ℚ) / (b : ℚ))

/-- IEEE comparison `v > 0.5` (False on NaN). -/
def gtHalf : PdFloat → Bool
  | PdFloat.fin q => decide ((1 : ℚ) / 2 < q)
  | PdFloat.posInf => true
  | PdFloat.negInf => false
  | PdFloat.nan => false

/-- Line 978: `1 if x >= 8 else 0` on `Publications_10_years`. -/
def no_of_pub_condition_10_years (x : ℤ) : ℤ := if x ≥ 8 then 1 else 0

/-- Line 981: `1 if x >= 3 else 0` on `Relevant_Publications_5_years`. -/
def no_of_pub_condition_5_years (x : ℤ) : ℤ := if x ≥ 3 then 1 else 0

/-- Line 984: `1 if x >= 1 else 0` on `Publications_2_years)`. -/
def no_of_pub_condition_2_years (x : ℤ) : ℤ := if x ≥ 1 then 1 else 0

/-- Lines 987-990:
`((Total_Publications > 0) & (English_Pubs / Total_Publications > 0.5)).astype(int)`.
Both operands of `&` are evaluated for every row (no short-circuit). -/
def english_condition (total english : ℤ) : ℤ :=
  if 0 < total ∧ gtHalf (pdDiv english total) = true then 1 else 0

/-- Line 991: `1 if not x else 0` on the boolean `coauthor` column. -/
def coauthor_condition (x : Bool) : ℤ := if x then 0 else 1

/-- Line 992: `1 if x == "NO" else 0` on `aff_match`. -/
def aff_condition (x : String) : ℤ := if x = "NO" then 1 else 0

/-- Line 993: `1 if x == "YES" else 0` on `country_match`. -/
def country_match_condition (x : String) : ℤ := if x = "YES" then 1 else 0

/-- Line 994: `1 if x > 1 else 0` on `Retracted_Pubs_no` (note: this is the
code as written; the spec states the opposite polarity, see claim C1). -/
def retracted_condition (x : ℤ) : ℤ := if 1 < x then 1 else 0

/-- The per-candidate inputs of the eight conditions (the slice of the
enriched row that lines 977-1004 read). -/
structure ValidationMetrics where
  Publications_10_years : ℤ
  Relevant_Publications_5_years : ℤ
  Publications_2_years : ℤ
  Total_Publications : ℤ
  English_Pubs : ℤ
  coauthor : Bool
  aff_match : String
  country_match : String
  Retracted_Pubs_no : ℤ
deriving DecidableEq

/-- The eight binary condition columns, their sum `conditions_met`
(lines 997-1003, summed in the column order of the source) and the
`conditions_satisfied` label (line 1004). -/
structure ConditionScore where
  no_of_pub_condition_10_years : ℤ
  no_of_pub_condition_5_years : ℤ
  no_of_pub_condition_2_years : ℤ
  english_condition : ℤ
  coauthor_condition : ℤ
  aff_condition : ℤ
  country_match_condition : ℤ
  retracted_condition : ℤ
  conditions_met : ℤ
  conditions_satisfied : String
deriving DecidableEq

def computeConditionScore (m : ValidationMetrics) : ConditionScore :=
  let c10 := no_of_pub_condition_10_years m.Publications_10_years
  let c5 := no_of_pub_condition_5_years m.Relevant_Publications_5_years
  let c2 := no_of_pub_condition_2_years m.Publications_2_years
  let ceng := english_condition m.Total_Publications m.English_Pubs
  let cco := coauthor_condition m.coauthor
  let caff := aff_condition m.aff_match
  let ccm := country_match_condition m.country_match
  let cret := retracted_condition m.Retracted_Pubs_no
  let met := c10 + ceng + cco + caff + ccm + c5 + c2 + cret
  { no_of_pub_condition_10_years := c10
    no_of_pub_condition_5_years := c5
    no_of_pub_condition_2_years := c2
    english_condition := ceng
    coauthor_condition := cco
    aff_condition := caff
    country_match_condition := ccm
    retracted_condition := cret
    conditions_met := met
    conditions_satisfied := toString met ++ " of 8" }

/-! ## Coauthorship pass (`validate_authors`, lines 946-960)

Source:
```python
authors = author_email_df["author"].tolist()
for idx, row in author_email_df.iterrows():
    author_from_df = row['author'].strip()
    coauthored_with_any = False
    for ref_author in authors:
        if check_coauthorship_selenium(author_from_df, ref_author.strip()):
            coauthored_with_any = True
            break
```
The inner loop ranges over the **whole** `authors` list, so every author
is also paired with its own entry (even when it occurs only once). -/

def coauthor_flags (check_coauthorship : String → String → Bool)
    (authors : List String) : List Bool :=
  authors.map (fun author_from_df =>
    authors.any (fun ref_author =>
      check_coauthorship (pyStrip author_from_df) (pyStrip ref_author)))

/-- `list(dict.fromkeys(countries_list))` (line 970): deduplicate keeping
the first occurrence of each element, preserving order. -/
def dedupKeepFirstAux : List String → List String → List String
  | _, [] => []
  | seen, x :: xs =>
    if seen.contains x then dedupKeepFirstAux seen xs
    else x :: dedupKeepFirstAux (x :: seen) xs

def dedupKeepFirst (l : List String) : List String := dedupKeepFirstAux [] l

/-! ## The enriched and scored row (`validate_authors`, lines 820-1004)

One row of `author_email_df` after every enrichment column and every
condition column has been added.  Field names follow the column names of
the source; the columns created as `Publications_2_years)` and
`Publications_last_year)` (with a stray closing parenthesis in the source
string, lines 881-908) keep their intent-names here, the quirk being
unrepresentable in a Lean identifier. -/

structure ValRow where
  author : String
  email : String
  aff : String
  city : String
  country : String
  Total_Publications : ℤ
  Total_Publications_first : ℤ
  Total_Publications_last : ℤ
  Publications_10_years : ℤ
  Publications_10_years_first : ℤ
  Publications_10_years_last : ℤ
  Publications_5_years : ℤ
  Publications_5_years_first : ℤ
  Publications_5_years_last : ℤ
  Relevant_Publications_5_years : ℤ
  Relevant_Publications_5_years_first : ℤ
  Relevant_Publications_5_years_last : ℤ
  Publications_2_years : ℤ
  Publications_2_years_first : ℤ
  Publications_2_years_last : ℤ
  Publications_last_year : ℤ
  Publications_last_year_first : ℤ
  Publications_last_year_last : ℤ
  Clinical_Trials_no : ℤ
  Retracted_Pubs_no : ℤ
  Clinical_study_no : ℤ
  Case_reports_no : ℤ
  TF_Publications_last_year : ℤ
  English_Pubs : ℤ
  coauthor : Bool
  country_match : String
  aff_match : String
  no_of_pub_condition_10_years : ℤ
  no_of_pub_condition_5_years : ℤ
  no_of_pub_condition_2_years : ℤ
  english_condition : ℤ
  coauthor_condition : ℤ
  aff_condition : ℤ
  country_match_condition : ℤ
  retracted_condition : ℤ
  conditions_met : ℤ
  conditions_satisfied : String
deriving DecidableEq

/-- The external collaborators consumed by `validate_authors`, opaque to
the core (section 6 of the spec).  `get_pubmed_count_selenium` takes the
author name, the optional trailing-year window, the keyword string (the
default argument is modelled as the empty string) and the optional role
filter.  `sort_values` stands for the pandas
`sort_values(by='conditions_met', ascending=False)` reordering on
line 1005: pandas' default kind is quicksort, whose tie behavior is
version- and size-dependent, so the permutation is kept opaque (claim C3). -/
structure Ext where
  get_pubmed_count_selenium : String → Option ℕ → String → Option String → ℤ
  clinical_trails_no : String → ℕ → ℤ
  pubmed_filtered_count : String → String → Option ℕ → ℤ
  search_tandfonline_author : String → String → String → ℤ
  pubmed_english_count : String → ℤ
  check_coauthorship_selenium : String → String → Bool
  country_extract : List String → List String
  check_country_in_list : String → List String → String
  check_aff_match : String → List String → String
  sort_values : List ValRow → List ValRow

/-- Lines 820-1004 for a single row: the per-axis enrichment queries
(each an independent external call, lines 823-943), the already computed
coauthor flag for this row, the country / affiliation matches against the
pool (lines 972-975), and the condition and score columns (lines 977-1004). -/
def enrich_author (ext : Ext) (keyword_string : String)
    (unique_countries_list original_aff : List String)
    (coauthored_with_any : Bool) (r : AuthorRow) : ValRow :=
  let g := ext.get_pubmed_count_selenium
  let total := g r.author none "" none
  let total_first := g r.author none "" (some "first")
  let total_last := g r.author none "" (some "last")
  let p10 := g r.author (some 10) "" none
  let p10_first := g r.author (some 10) "" (some "first")
  let p10_last := g r.author (some 10) "" (some "last")
  let p5 := g r.author (some 5) "" none
  let p5_first := g r.author (some 5) "" (some "first")
  let p5_last := g r.author (some 5) "" (some "last")
  let rel5 := g r.author (some 5) keyword_string none
  let rel5_first := g r.author (some 5) keyword_string (some "first")
  let rel5_last := g r.author (some 5) keyword_string (some "last")
  let p2 := g r.author (some 2) "" none
  let p2_first := g r.author (some 2) "" (some "first")
  let p2_last := g r.author (some 2) "" (some "last")
  let p1 := g r.author (some 1) "" none
  let p1_first := g r.author (some 1) "" (some "first")
  let p1_last := g r.author (some 1) "" (some "last")
  let clinical := ext.clinical_trails_no r.author 2
  let retracted := ext.pubmed_filtered_count r.author "Retracted Publication" none
  let study := ext.pubmed_filtered_count r.author "Clinical Study" (some 2)
  let case_reports := ext.pubmed_filtered_count r.author "Case Reports" (some 2)
  let tf := ext.search_tandfonline_author r.author "2024" "2025"
  let english := ext.pubmed_english_count r.author
  let cm := ext.check_country_in_list r.aff unique_countries_list
  let am := ext.check_aff_match r.aff original_aff
  let c10 := no_of_pub_condition_10_years p10
  let c5 := no_of_pub_condition_5_years rel5
  let c2 := no_of_pub_condition_2_years p2
  let ceng := english_condition total english
  let cco := coauthor_condition coauthored_with_any
  let caff := aff_condition am
  let ccm := country_match_condition cm
  let cret := retracted_condition retracted
  let met := c10 + ceng + cco + caff + ccm + c5 + c2 + cret
  { author := r.author, email := r.email, aff := r.aff,
    city := r.city, country := r.country
    Total_Publications := total
    Total_Publications_first := total_first
    Total_Publications_last := total_last
    Publications_10_years := p10
    Publications_10_years_first := p10_first
    Publications_10_years_last := p10_last
    Publications_5_years := p5
    Publications_5_years_first := p5_first
    Publications_5_years_last := p5_last
    Relevant_Publications_5_years := rel5
    Relevant_Publications_5_years_first := rel5_first
    Relevant_Publications_5_years_last := rel5_last
    Publications_2_years := p2
    Publications_2_years_first := p2_first
    Publications_2_years_last := p2_last
    Publications_last_year := p1
    Publications_last_year_first := p1_first
    Publications_last_year_last := p1_last
    Clinical_Trials_no := clinical
    Retracted_Pubs_no := retracted
    Clinical_study_no := study
    Case_reports_no := case_reports
    TF_Publications_last_year := tf
    English_Pubs := english
    coauthor := coauthored_with_any
    country_match := cm
    aff_match := am
    no_of_pub_condition_10_years := c10
    no_of_pub_condition_5_years := c5
    no_of_pub_condition_2_years := c2
    english_condition := ceng
    coauthor_condition := cco
    aff_condition := caff
    country_match_condition := ccm
    retracted_condition := cret
    conditions_met := met
    conditions_satisfied := toString met ++ " of 8" }

/-- The whole per-pool computation of `validate_authors` (lines 820-1004):
the coauthor pass over the full author list, the pool-level country list
(`country_extract` on all raw affiliations, deduplicated keeping first
occurrences, lines 965-970), then every row enriched and scored. -/
def scoreAuthors (ext : Ext) (keyword_string : String)
    (rows : List AuthorRow) : List ValRow :=
  let authors := rows.map (fun r => r.author)
  let coauthor_results := coauthor_flags ext.check_coauthorship_selenium authors
  let original_aff := rows.map (fun r => r.aff)
  let countries_list := ext.country_extract original_aff
  let unique_countries_list := dedupKeepFirst countries_list
  (rows.zip coauthor_results).map (fun rc =>
    enrich_author ext keyword_string unique_countries_list original_aff rc.2 rc.1)

/-! ## The job store and the validation stage entry point -/

/-- The artifacts of one job directory that `validate_authors` touches:
`author_email_df_before_val.csv` (the merged candidate table),
`*_keywordstring.json` (holding the keyword string), and the two output
tables it writes, `author_email_df_after_val.csv` and `Final_authors.csv`
(lines 1008-1014; `Final_authors.csv` is the same table with the `author`
column renamed to `reviewer`).  `none` models an absent file.
The display projection on lines 1016-1025 selects a column name
(`Publications_last_year` without the stray parenthesis) that was never
created, which raises a pandas KeyError after the two writes above; the
display artifact is therefore not modelled. -/
structure JobStore where
  author_email_before_val : Option (List AuthorRow)
  keywordstring : Option String
  after_val : Option (List ValRow)
  final_authors : Option (List ValRow)

/-- `validate_authors` (lines 776-1036), at the artifact level.
Lines 798-805: if the merged candidate table is absent the endpoint
returns a 404 error and writes nothing.  Lines 811-818: a missing
keyword-string artifact is NOT an error — `keyword_string` is initialized
to `""` and only overwritten when the file exists.  The persisted tables
are the scored pool reordered by `sort_values(by='conditions_met',
ascending=False)` (line 1005), kept opaque in `ext.sort_values`. -/
def validate_authors (ext : Ext) (store : JobStore) :
    JobStore × Except String String :=
  match store.author_email_before_val with
  | none =>
      (store, Except.error
        "No author_email_df_before_val.csv found. Please run /database_search first.")
  | some rows =>
      let keyword_string := store.keywordstring.getD ""
      let table := ext.sort_values (scoreAuthors ext keyword_string rows)
      ({ store with after_val := some table, final_authors := some table },
       Except.ok "Author validation and scoring completed successfully.")

/-! ## Manual author addition (`manual_authors`, lines 669-770)

`search_pubmed_author` may raise (modelled as `Except.error`) or return
the pair (email, affiliation); a Python-falsy email or affiliation
(`None` or `""`) is modelled as `""`.  The `dropna` on line 749 is the
identity here (no NaN can appear), and `str(...)` around the extractor
results is the identity on strings. -/
def manual_authors (extract_city extract_country : String → String)
    (search_pubmed_author : String → Except String (String × String))
    (store : Option (List AuthorRow)) (author_name : String) :
    Option (List AuthorRow) × Except String String :=
  let author_email_df := store.getD []
  match search_pubmed_author author_name with
  | Except.error _ =>
      (store, Except.error "Failed to search for author. Please try again.")
  | Except.ok (author_email, author_affiliation) =>
      if pyStrip author_name = "" ∨ author_email = "" ∨ author_affiliation = "" then
        (store, Except.error "Author not found or missing email/affiliation.")
      else
        let new_author : AuthorRow :=
          { author := pyStrip author_name, email := pyStrip author_email,
            aff := pyStrip author_affiliation,
            city := extract_city (pyStrip author_affiliation),
            country := extract_country (pyStrip author_affiliation) }
        let df1 := author_email_df ++ [new_author]
        let df2 := df1.map (fun r =>
          { r with
            city := if extract_city r.aff = "" then "" else extract_city r.aff,
            country := if extract_country r.aff = "" then "" else extract_country r.aff })
        (some df2, Except.ok "Author added successfully.")

/-! ## Claim C1 — retraction condition polarity -/

/-- Claim C1: the claim states that the retraction condition is 1 exactly
when the retracted-publication count is at most 1 and 0 when it exceeds 1.
The code (line 994, `1 if x > 1 else 0`) computes the opposite polarity:
counts 0 and 1 yield 0 and count 2 yields 1.  Evaluating the embedded
source at these inputs exhibits the divergence. -/
theorem retracted_condition_inverted :
    retracted_condition 0 = 0 ∧ retracted_condition 1 = 0 ∧
      retracted_condition 2 = 1 :=
  ⟨rfl, rfl, rfl⟩

/-! ## Claim C6 — boolean query construction -/

theorem spec_clause_ne_empty (g : List String) : spec_clause g ≠ "" := by
  intro h
  have h2 := congrArg String.length h
  rw [spec_clause, String.length_append, String.length_append] at h2
  have h3 : ("(" : String).length = 1 := rfl
  have h4 : (")" : String).length = 1 := rfl
  have h5 : ("" : String).length = 0 := rfl
  omega

theorem build_string_eq_clause (g : List String) (hg : ∀ kw ∈ g, kw ≠ "") :
    build_string g = if g.isEmpty then "" else spec_clause g := by
  have hf : g.filter (fun kw => kw ≠ "") = g := by
    rw [List.filter_eq_self]
    intro a ha
    simpa using hg a ha
  simp only [build_string]
  rw [hf]
  rcases g with _ | ⟨a, t⟩
  · rfl
  · rcases t with _ | ⟨b, t2⟩ <;> rfl

/-- Claim C6: for keyword groups whose terms are nonempty strings (as
produced by the comma-split-and-strip on lines 437-438), the generated
query joins terms of a group with OR inside parentheses and the two
groups with AND; a single-term group renders as that term in parentheses;
when one group is empty the result is only the other clause, with no AND. -/
theorem keyword_string_matches_spec (p s : List String)
    (hp : ∀ kw ∈ p, kw ≠ "") (hs : ∀ kw ∈ s, kw ≠ "") :
    keyword_string p s = spec_keyword_query p s := by
  rcases p with _ | ⟨a, p'⟩ <;> rcases s with _ | ⟨b, s'⟩
  · rfl
  · have h2 : build_string (b :: s') = spec_clause (b :: s') := by
      simpa using build_string_eq_clause (b :: s') hs
    simp [keyword_string, spec_keyword_query, h2,
      show build_string [] = "" from rfl]
  · have h1 : build_string (a :: p') = spec_clause (a :: p') := by
      simpa using build_string_eq_clause (a :: p') hp
    simp [keyword_string, spec_keyword_query, h1, spec_clause_ne_empty,
      show build_string [] = "" from rfl]
  · have h1 : build_string (a :: p') = spec_clause (a :: p') := by
      simpa using build_string_eq_clause (a :: p') hp
    have h2 : build_string (b :: s') = spec_clause (b :: s') := by
      simpa using build_string_eq_clause (b :: s') hs
    simp [keyword_string, spec_keyword_query, h1, h2, spec_clause_ne_empty]

/-- Witness for C6 at the concrete groups of the spec example. -/
theorem keyword_string_matches_spec_witness :
    keyword_string ["asthma", "COPD"] ["pediatric"] =
        "(asthma OR COPD) AND (pediatric)" ∧
      keyword_string ["asthma"] [] = "(asthma)" := by
  have h1 := keyword_string_matches_spec ["asthma", "COPD"] ["pediatric"]
    (by decide) (by decide)
  have h2 := keyword_string_matches_spec ["asthma"] [] (by decide) (by decide)
  exact ⟨h1.trans rfl, h2.trans rfl⟩

/-! ## Claim C7 — scoring is a pure function of the metrics -/

/-- Claim C7: the condition scoring (lines 977-1004) reads only the
candidate's `ValidationMetrics`; recomputing on an identical record gives
an identical `ConditionScore`.  In this embedding the scoring is a Lean
function, so determinism holds by congruence — the content of the claim
is that the embedded scoring, faithful to the source, is indeed a
function of the metrics record alone. -/
theorem computeConditionScore_deterministic (m1 m2 : ValidationMetrics)
    (h : m1 = m2) : computeConditionScore m1 = computeConditionScore m2 :=
  congrArg computeConditionScore h

def metricsExample : ValidationMetrics :=
  { Publications_10_years := 9, Relevant_Publications_5_years := 4,
    Publications_2_years := 1, Total_Publications := 20, English_Pubs := 15,
    coauthor := false, aff_match := "NO", country_match := "YES",
    Retracted_Pubs_no := 0 }

/-- Witness for C7 at a concrete metrics record. -/
theorem computeConditionScore_deterministic_witness :
    computeConditionScore metricsExample = computeConditionScore metricsExample :=
  computeConditionScore_deterministic metricsExample metricsExample rfl

/-! ## Claim C8 — trailing-10-year publication threshold -/

/-- Claim C8: condition 1 equals 1 exactly when the trailing-10-year
publication count is at least 8; in particular 8 satisfies it and 7
does not (line 978, `1 if x >= 8 else 0`). -/
theorem pub_condition_10_years_boundary :
    (∀ x : ℤ, no_of_pub_condition_10_years x = 1 ↔ 8 ≤ x) ∧
      no_of_pub_condition_10_years 8 = 1 ∧ no_of_pub_condition_10_years 7 = 0 := by
  refine ⟨fun x => ?_, by decide, by decide⟩
  unfold no_of_pub_condition_10_years
  split_ifs with h
  · simpa using h
  · constructor
    · intro h01
      omega
    · intro hx
      exact absurd hx h

/-! ## Claim C9 — zero total publications cannot break the English ratio -/

/-- Claim C9: for a candidate with zero total publications the
English-ratio condition (lines 987-990) evaluates to 0 and no division
error is raised: the embedded pandas division `pdDiv` is a total function
(numpy float division by zero yields inf or NaN, never an exception), and
the `Total_Publications > 0` conjunct is false, so the `astype(int)`
result is 0 regardless of the English count. -/
theorem english_condition_zero_total (english : ℤ) :
    english_condition 0 english = 0 := by
  simp [english_condition]

/-! ## Claim C2 — the merge performs no deduplication -/

/-- Counterexample to claim C2: two aggregated records (nonempty email
and affiliation maps) whose raw author names `"Jane Doe"` and
`"Jane Doe, MD"` both normalize to `"Jane Doe"`, with two different
emails.  The claim requires the merged pool to contain exactly one entry
for that name, keyed by the first-seen email; the code keeps BOTH
entries, each with its own email and affiliation. -/
theorem database_search_dedup_counterexample :
    (database_search_merge (fun _ => "") (fun _ => "")
        [{ author_email_map := [("Jane Doe", "a@x.org")],
           author_aff_map := [("Jane Doe", "U1")] },
         { author_email_map := [("Jane Doe, MD", "b@y.org")],
           author_aff_map := [("Jane Doe, MD", "U2")] }]).map
      (fun r => (r.author, r.email, r.aff)) =
    [("Jane Doe", "a@x.org", "U1"), ("Jane Doe", "b@y.org", "U2")] := by
  rfl

/-- Claim C2 amended: the merge of `database_search` performs no
deduplication at all — the candidate pool has exactly one entry per
email-map entry of each surviving record, in order, carrying that
record's email and affiliation with only the name cleaned; in particular
the same normalized author name with two different emails yields two
pool entries, not one. -/
theorem database_search_no_dedup (extract_city extract_country : String → String)
    (rows : List RawRecord) :
    (database_search_merge extract_city extract_country rows).map
        (fun r => (r.author, r.email, r.aff)) =
      (flattenRecords rows).map (fun t => (clean_author t.1, t.2.1, t.2.2)) := by
  simp [database_search_merge, List.map_map, Function.comp]

/-! ## Claim C4 — coauthor flag pairs every author with the whole pool -/

/-- Coauthorship collaborator for the C4 counterexample: true only on the
pair ("A", "A"). -/
def coA : String → String → Bool := fun x y => x == "A" && y == "A"

/-- Counterexample to claim C4: in the pool `["A", "B"]` the candidate
`"A"` occurs once, and the collaborator answers true only for `"A"`
paired with itself — false for `"A"` paired with every other pool
member.  The claim then requires the flag of `"A"` to be false (self is
a pairing partner only when the name appears twice), but the code flags
it true: the inner loop ranges over the whole author list, own entry
included. -/
theorem coauthor_self_pairing_counterexample :
    coauthor_flags coA ["A", "B"] = [true, false] ∧
      coA "A" "B" = false ∧ coA "B" "A" = false ∧ coA "B" "B" = false :=
  ⟨rfl, rfl, rfl, rfl⟩

/-- Claim C4 amended: the coauthor flag of candidate X is true exactly
when the coauthorship collaborator returns true for X paired with SOME
member of the current pool list — including X's own entry even when X
appears only once (the evaluation short-circuits at the first positive
pairing, which is observationally `List.any`). -/
theorem coauthor_flags_spec (check : String → String → Bool)
    (authors : List String) :
    coauthor_flags check authors =
      authors.map (fun a =>
        decide (∃ r ∈ authors, check (pyStrip a) (pyStrip r) = true)) := by
  unfold coauthor_flags
  apply List.map_congr_left
  intro a _
  rw [Bool.eq_iff_iff]
  simp [List.any_eq_true]

/-! ## Claim C5 — stage preconditions of `validate_authors` -/

/-- A trivial collaborator bundle for concrete evaluation. -/
def constExt : Ext :=
  { get_pubmed_count_selenium := fun _ _ _ _ => 0
    clinical_trails_no := fun _ _ => 0
    pubmed_filtered_count := fun _ _ _ => 0
    search_tandfonline_author := fun _ _ _ => 0
    pubmed_english_count := fun _ => 0
    check_coauthorship_selenium := fun _ _ => false
    country_extract := fun _ => []
    check_country_in_list := fun _ _ => "NO"
    check_aff_match := fun _ _ => "YES"
    sort_values := fun t => t }

/-- A job with a keyword-string artifact but no merged candidate table. -/
def storeNoTable : JobStore :=
  { author_email_before_val := none, keywordstring := some "(asthma)",
    after_val := none, final_authors := none }

/-- A job with a merged candidate table but no keyword-string artifact. -/
def storeNoKeyword : JobStore :=
  { author_email_before_val := some [], keywordstring := none,
    after_val := none, final_authors := none }

/-- Counterexample to claim C5: a job whose keyword-string artifact is
absent while the merged candidate table exists.  The claim requires the
stage to refuse and write no output artifacts; the code proceeds — the
keyword string silently defaults to the empty string — and writes both
output tables. -/
theorem validate_authors_missing_keyword_counterexample :
    storeNoKeyword.keywordstring = none ∧
      (validate_authors constExt storeNoKeyword).1.after_val = some [] ∧
      (validate_authors constExt storeNoKeyword).1.final_authors = some [] :=
  ⟨rfl, rfl, rfl⟩

/-- Claim C5 amended: the validation stage refuses to run — error return,
store left unchanged — exactly when the merged candidate table
(`author_email_df_before_val.csv`) is absent; a missing keyword-string
artifact does NOT block the stage, which runs with an empty keyword
string and writes its output artifacts. -/
theorem validate_authors_prerequisites (ext : Ext) (store : JobStore) :
    (store.author_email_before_val = none →
      validate_authors ext store =
        (store, Except.error
          "No author_email_df_before_val.csv found. Please run /database_search first.")) ∧
    (∀ rows, store.author_email_before_val = some rows →
      (validate_authors ext store).1.after_val ≠ none ∧
      (validate_authors ext store).1.final_authors ≠ none) := by
  constructor
  · intro h
    simp [validate_authors, h]
  · intro rows h
    simp [validate_authors, h]

/-- Witness for C5 at the two concrete stores. -/
theorem validate_authors_prerequisites_witness :
    validate_authors constExt storeNoTable =
        (storeNoTable, Except.error
          "No author_email_df_before_val.csv found. Please run /database_search first.") ∧
      (validate_authors constExt storeNoKeyword).1.after_val ≠ none :=
  ⟨(validate_authors_prerequisites constExt storeNoTable).1 rfl,
   ((validate_authors_prerequisites constExt storeNoKeyword).2 [] rfl).1⟩

/-! ## Claim C10 — manual author addition is atomic on lookup failure -/

/-- Claim C10: when the external PubMed lookup succeeds but returns an
empty (missing) email or affiliation — or the submitted name is blank —
`manual_authors` reports the not-found error and the stored candidate
table is returned unchanged: the error return precedes every write. -/
theorem manual_authors_not_found_no_write
    (extract_city extract_country : String → String)
    (search_pubmed_author : String → Except String (String × String))
    (store : Option (List AuthorRow))
    (author_name author_email author_affiliation : String)
    (hs : search_pubmed_author author_name =
      Except.ok (author_email, author_affiliation))
    (h : pyStrip author_name = "" ∨ author_email = "" ∨ author_affiliation = "") :
    manual_authors extract_city extract_country search_pubmed_author store author_name =
      (store, Except.error "Author not found or missing email/affiliation.") := by
  unfold manual_authors
  rw [hs]
  simp only []
  rw [if_pos h]

/-- Lookup stub for the C10 witness: found, but with an empty email. -/
def searchEmptyEmail : String → Except String (String × String) :=
  fun _ => Except.ok ("", "Some University")

/-- Witness for C10 at a concrete store and lookup result. -/
theorem manual_authors_not_found_no_write_witness :
    manual_authors (fun _ => "") (fun _ => "") searchEmptyEmail (some [])
        "Jane Doe" =
      (some [], Except.error "Author not found or missing email/affiliation.") :=
  manual_authors_not_found_no_write (fun _ => "") (fun _ => "") searchEmptyEmail
    (some []) "Jane Doe" "" "Some University" rfl (Or.inr (Or.inl rfl))

end ScholarFinder
